import Mathlib

/-!
Shallow embedding of the LPC18xx/43xx DFU utility firmware: the region
registry and its root dispatcher (dfuutil_programming_algo.c, given as
src/unnamed/part_002 first section), the internal-FLASH programming
algorithm (second section of the same file), the internal-EEPROM
programming algorithm (dfuutil_programming_eeprom_algorithm.c), and the
USB command/status state machine with its debug ring buffer
(dfuutil_programming_dfu_ops.c).  All machine integers are modelled as
Nat carrying uint32 values, with explicit reduction modulo 2^32 exactly
where the C arithmetic can wrap.  Hardware effects (IAP ROM calls,
driver calls) are made visible as explicit call traces so that theorems
can state that a driver or ROM routine is or is not invoked.
-/

namespace DfuUtil

/-- Modulus of the uint32 arithmetic of the firmware. -/
def U32 : Nat := 4294967296

/-- Wrapping uint32 addition. -/
def u32add (a b : Nat) : Nat := (a + b) % U32

/-- Wrapping uint32 subtraction of values already reduced mod 2^32. -/
def u32sub (a b : Nat) : Nat := (a % U32 + U32 - b % U32) % U32

/-- Magic constant DFUPROG_VALIDVAL = 0x18430000 OR 0x010B from
dfuutil_programming_api.h. -/
def DFUPROG_VALIDVAL : Nat := 0x1843010B

/-- Size of the USB debug message ring buffer (USBMSGBUFFSIZE). -/
def USBMSGBUFFSIZE : Nat := 2048

/-- Internal FLASH page size (PAGE_SIZE in the FLASH algorithm). -/
def PAGE_SIZE : Nat := 512

/-- IAP status value IAP_CMD_SUCCESS (0, from the chip support library). -/
def IAP_CMD_SUCCESS : Nat := 0

/-- Host command codes, in the declaration order of DFU_HOSTCMD_T. -/
def DFU_HOSTCMD_READIDS : Nat := 0

def DFU_HOSTCMD_SETDEBUG : Nat := 1

def DFU_HOSTCMD_PROGOTP : Nat := 2

def DFU_HOSTCMD_READOTP : Nat := 3

def DFU_HOSTCMD_STARTNEWSESS : Nat := 4

def DFU_HOSTCMD_STARTENCSESS : Nat := 5

def DFU_HOSTCMD_ERASE_ALL : Nat := 6

def DFU_HOSTCMD_ERASE_REGION : Nat := 7

def DFU_HOSTCMD_PROGRAM : Nat := 8

def DFU_HOSTCMD_READBACK : Nat := 9

def DFU_HOSTCMD_RESET : Nat := 10

def DFU_HOSTCMD_EXECUTE : Nat := 11

/-- Operational status values of DFU_OPSTS_T, one constructor per enum
member, in declaration order. -/
inductive OPSTS where
  | IDLE
  | ERRER
  | PROGER
  | READER
  | ERRUN
  | VERERR
  | READBUSY
  | READTRIG
  | READREADY
  | ERASE_ALL_ST
  | ERASE_ST
  | ERASE
  | PROG
  | PROG_RSVD
  | PROG_STREAM
  | RESET
  | EXEC
  | LOOP
deriving DecidableEq, Repr

/-- A driver call issued by the root dispatcher, recorded as a trace
element so theorems can state which driver functions run. -/
inductive DriverCall where
  | erase_region (addr size : Nat)
  | erase_all (addr size : Nat)
  | write (addr size : Nat)
  | read (addr size : Nat)
  | close (addr : Nat)
deriving DecidableEq, Repr

/-- Function table of a programming algorithm (PROGALGOS_T).  Each entry
returns the uint32 the C function returns; the buffer argument of write
is abstracted since the dispatcher forwards it untouched, and close
returns void so it appears only in call traces. -/
structure PROGALGOS where
  erase_region : Nat → Nat → Nat
  erase_all : Nat → Nat → Nat
  write : Nat → Nat → Nat
  read : Nat → Nat → Nat

instance : Inhabited PROGALGOS :=
  ⟨⟨fun _ _ => 0, fun _ _ => 0, fun _ _ => 0, fun _ _ => 0⟩⟩

/-- A registered region (DFUPROG_REGION_T). -/
structure DFUPROG_REGION where
  region_addr : Nat
  region_size : Nat
  regname : String
  pprogalgos : PROGALGOS
  buffer_size : Nat

instance : Inhabited DFUPROG_REGION :=
  ⟨⟨0, 0, "", default, 0⟩⟩

/-- Linear scan of algo_root_isRegionValid: the first region with
regAddr less-or-equal addr whose wrapped end bound admits addr + size
wins; the additions addr + size and regAddr + region_size are uint32
and wrap, exactly as in the C comparison. -/
def isRegionValidScan (addr size : Nat) : List DFUPROG_REGION → Nat → Int
  | [], _ => -1
  | r :: rest, idx =>
    if r.region_addr ≤ addr ∧
        (addr + size) % U32 ≤ (r.region_addr + r.region_size) % U32 then
      (idx : Int)
    else
      isRegionValidScan addr size rest (idx + 1)

/-- Registry lookup algo_root_isRegionValid: region index, or -1 when no
registered region admits the range. -/
def algo_root_isRegionValid (regs : List DFUPROG_REGION) (addr size : Nat) : Int :=
  isRegionValidScan addr size regs 0

/-- Result of a root dispatcher operation: the returned uint32, the
trace of driver calls made, and the number of DFUDEBUG diagnostics
submitted to the debug sink on the way. -/
structure RootResult where
  ret : Nat
  calls : List DriverCall
  diags : Nat
deriving DecidableEq, Repr

/-- Result of algo_root_close, which returns bool in C. -/
structure RootCloseResult where
  ok : Bool
  calls : List DriverCall
  diags : Nat
deriving DecidableEq, Repr

/-- Root dispatcher algo_root_erase_region.  On a failed lookup two
diagnostics are queued (one inside algo_root_isRegionValid, one here)
and 0 returns without a driver call; otherwise the owning region driver
is called and its value passed through. -/
def algo_root_erase_region (regs : List DFUPROG_REGION) (addr size : Nat) : RootResult :=
  if algo_root_isRegionValid regs addr size < 0 then
    { ret := 0, calls := [], diags := 2 }
  else
    { ret := (regs.getD (algo_root_isRegionValid regs addr size).toNat
        default).pprogalgos.erase_region addr size,
      calls := [DriverCall.erase_region addr size],
      diags := 0 }

/-- Root dispatcher algo_root_erase_all: looks up with size 0 and calls
the driver with the owning region base address and size. -/
def algo_root_erase_all (regs : List DFUPROG_REGION) (addr : Nat) : RootResult :=
  if algo_root_isRegionValid regs addr 0 < 0 then
    { ret := 0, calls := [], diags := 2 }
  else
    { ret := (regs.getD (algo_root_isRegionValid regs addr 0).toNat
        default).pprogalgos.erase_all
          (regs.getD (algo_root_isRegionValid regs addr 0).toNat default).region_addr
          (regs.getD (algo_root_isRegionValid regs addr 0).toNat default).region_size,
      calls := [DriverCall.erase_all
          (regs.getD (algo_root_isRegionValid regs addr 0).toNat default).region_addr
          (regs.getD (algo_root_isRegionValid regs addr 0).toNat default).region_size],
      diags := 0 }

/-- Root dispatcher algo_root_write. -/
def algo_root_write (regs : List DFUPROG_REGION) (addr size : Nat) : RootResult :=
  if algo_root_isRegionValid regs addr size < 0 then
    { ret := 0, calls := [], diags := 2 }
  else
    { ret := (regs.getD (algo_root_isRegionValid regs addr size).toNat
        default).pprogalgos.write addr size,
      calls := [DriverCall.write addr size],
      diags := 0 }

/-- Root dispatcher algo_root_read. -/
def algo_root_read (regs : List DFUPROG_REGION) (addr size : Nat) : RootResult :=
  if algo_root_isRegionValid regs addr size < 0 then
    { ret := 0, calls := [], diags := 2 }
  else
    { ret := (regs.getD (algo_root_isRegionValid regs addr size).toNat
        default).pprogalgos.read addr size,
      calls := [DriverCall.read addr size],
      diags := 0 }

/-- Root dispatcher algo_root_close: looks up with size 0, calls the
driver close (void) and returns true; false without any call on a
failed lookup. -/
def algo_root_close (regs : List DFUPROG_REGION) (addr : Nat) : RootCloseResult :=
  if algo_root_isRegionValid regs addr 0 < 0 then
    { ok := false, calls := [], diags := 2 }
  else
    { ok := true, calls := [DriverCall.close addr], diags := 0 }

/-- Mutable session state of dfuutil_programming_dfu_ops.c: the file
globals shared between the USB callbacks and the background loop.
progBuffActive records which buffer the OUT endpoint pointer was parked
on (true = dfuProgBuff, the raw program staging buffer; false = dfuIn,
the command packet buffer). -/
structure Session where
  currStatus : OPSTS
  hostCmd : Nat
  currentRegion : Nat
  buffer_size : Nat
  currCmdAddr : Nat
  currCmdSize : Nat
  outPktSizeIdx : Nat
  progSize : Nat
  inPktSize : Nat
  inPktSizeIdx : Nat
  verifyDebug : Bool
  progBuffActive : Bool
deriving DecidableEq, Repr

/-- Host packet header DFU_FROMHOST_PACKETHDR_T. -/
structure DFU_FROMHOST_PACKETHDR where
  hostCmd : Nat
  addr : Nat
  size : Nat
  magic : Nat
deriving DecidableEq, Repr

/-- checkMagicHeader: first component is the returned bool (always
true), second is whether the version-mismatch warning diagnostic was
submitted to the debug sink. -/
def checkMagicHeader (magic : Nat) : Bool × Bool :=
  (true, decide (magic ≠ DFUPROG_VALIDVAL))

/-- usbDFUSetVerbose: low address bit clear means verbose. -/
def usbDFUSetVerbose (s : Session) (addr : Nat) : Session :=
  { s with hostCmd := DFU_HOSTCMD_SETDEBUG,
           verifyDebug := decide (addr % 2 = 0) }

/-- usbDFUStartSession: state IDLE, resolve the region by lookup with
fallback to region 0 on a failed lookup, record the region buffer size
and the command address and size. -/
def usbDFUStartSession (regs : List DFUPROG_REGION) (s : Session)
    (addr size : Nat) : Session :=
  { s with currStatus := OPSTS.IDLE,
           hostCmd := DFU_HOSTCMD_STARTNEWSESS,
           currentRegion :=
             (if algo_root_isRegionValid regs addr size < 0 then 0
              else (algo_root_isRegionValid regs addr size).toNat),
           buffer_size :=
             (regs.getD
               (if algo_root_isRegionValid regs addr size < 0 then 0
                else (algo_root_isRegionValid regs addr size).toNat)
               default).buffer_size,
           currCmdAddr := addr,
           currCmdSize := size }

/-- usbDFUEraseAll. -/
def usbDFUEraseAll (s : Session) : Session :=
  { s with currStatus := OPSTS.ERASE_ALL_ST, hostCmd := DFU_HOSTCMD_ERASE_ALL }

/-- usbDFUEraseRegion. -/
def usbDFUEraseRegion (s : Session) (addr size : Nat) : Session :=
  { s with currStatus := OPSTS.ERASE_ST, hostCmd := DFU_HOSTCMD_ERASE_REGION,
           currCmdAddr := addr, currCmdSize := size }

/-- usbDFUProgRegion. -/
def usbDFUProgRegion (s : Session) (addr size : Nat) : Session :=
  { s with currStatus := OPSTS.PROG_STREAM, hostCmd := DFU_HOSTCMD_PROGRAM,
           currCmdAddr := addr, currCmdSize := size }

/-- usbDFUReadRegion. -/
def usbDFUReadRegion (s : Session) (addr size : Nat) : Session :=
  { s with currStatus := OPSTS.READBUSY, hostCmd := DFU_HOSTCMD_READBACK,
           currCmdAddr := addr, currCmdSize := size }

/-- usbDFUReset. -/
def usbDFUReset (s : Session) : Session :=
  { s with currStatus := OPSTS.RESET, hostCmd := DFU_HOSTCMD_RESET }

/-- usbDFUExecute. -/
def usbDFUExecute (s : Session) (addr : Nat) : Session :=
  { s with currStatus := OPSTS.EXEC, hostCmd := DFU_HOSTCMD_EXECUTE,
           currCmdAddr := addr }

/-- End of the command switch in dfu_wr for all cases other than
PROGRAM: the packet index resets and the endpoint buffer returns to the
command packet buffer dfuIn. -/
def wrFinish (s : Session) : Session :=
  { s with outPktSizeIdx := 0, progBuffActive := false }

/-- Command dispatch of dfu_wr for a nonzero-length packet outside of
streaming mode: the header magic is checked (warning only), then the
switch on hostCmd runs.  PROGOTP and READOTP are accepted no-ops;
PROGRAM parks the endpoint buffer on the program staging buffer and
returns early; every unlisted code (including READIDS and STARTENCSESS)
falls to the default branch and forces the unknown-command error state.
The second component reports whether the version warning was queued. -/
def dfuWrDispatch (regs : List DFUPROG_REGION) (s : Session)
    (cmd addr size : Nat) : Session :=
  if cmd = DFU_HOSTCMD_SETDEBUG then
    wrFinish (usbDFUSetVerbose s addr)
  else if cmd = DFU_HOSTCMD_PROGOTP then
    wrFinish s
  else if cmd = DFU_HOSTCMD_READOTP then
    wrFinish s
  else if cmd = DFU_HOSTCMD_STARTNEWSESS then
    wrFinish (usbDFUStartSession regs s addr size)
  else if cmd = DFU_HOSTCMD_ERASE_ALL then
    wrFinish (usbDFUEraseAll s)
  else if cmd = DFU_HOSTCMD_ERASE_REGION then
    wrFinish (usbDFUEraseRegion s addr size)
  else if cmd = DFU_HOSTCMD_PROGRAM then
    { usbDFUProgRegion s addr size with
        outPktSizeIdx := 0, progBuffActive := true }
  else if cmd = DFU_HOSTCMD_READBACK then
    wrFinish (usbDFUReadRegion s addr size)
  else if cmd = DFU_HOSTCMD_RESET then
    wrFinish (usbDFUReset s)
  else if cmd = DFU_HOSTCMD_EXECUTE then
    wrFinish (usbDFUExecute s addr)
  else
    wrFinish { s with currStatus := OPSTS.ERRUN }

/-- Header parse of dfu_wr: the magic check (which only ever warns)
followed by the switch on hostCmd; the switch never reads the magic
field. -/
def dfuWrCommand (regs : List DFUPROG_REGION) (s : Session)
    (hdr : DFU_FROMHOST_PACKETHDR) : Session × Bool :=
  (dfuWrDispatch regs s hdr.hostCmd hdr.addr hdr.size,
   (checkMagicHeader hdr.magic).2)

/-- Streaming-mode arm of dfu_wr (currStatus = PROG_STREAM), written in
terms of the state before the packet-concatenation increment: a
zero-length packet resets the staging index and re-arms the program
buffer; a packet that brings the accumulated index exactly to the
buffer size or to the remaining command size stages the accumulated
bytes for the executor (state PROG, progSize set, remaining size
decremented, endpoint back on dfuIn); any other packet only
accumulates. -/
def dfuWrStream (s : Session) (length : Nat) : Session :=
  if length = 0 then
    { s with outPktSizeIdx := 0, progBuffActive := true }
  else if u32add s.outPktSizeIdx length = s.buffer_size ∨
      u32add s.outPktSizeIdx length = s.currCmdSize then
    { s with currStatus := OPSTS.PROG,
             progSize := u32add s.outPktSizeIdx length,
             currCmdSize := u32sub s.currCmdSize (u32add s.outPktSizeIdx length),
             outPktSizeIdx := 0,
             progBuffActive := false }
  else
    { s with outPktSizeIdx := u32add s.outPktSizeIdx length }

/-- OUT-endpoint handler dfu_wr: in streaming mode every chunk is raw
program data; otherwise a nonzero-length packet is parsed as a command
header, and a zero-length packet only resets the packet index.  The
second component reports whether a version warning was queued. -/
def dfuWr (regs : List DFUPROG_REGION) (s : Session) (length : Nat)
    (hdr : DFU_FROMHOST_PACKETHDR) : Session × Bool :=
  if s.currStatus = OPSTS.PROG_STREAM then
    (dfuWrStream s length, false)
  else if length ≠ 0 then
    dfuWrCommand regs { s with outPktSizeIdx := u32add s.outPktSizeIdx length } hdr
  else
    ({ s with outPktSizeIdx := 0, progBuffActive := false }, false)

/-- Size of the status packet usbDFUBuildStatus builds: a 16-byte
header plus a fixed 64-byte debug field when the drained debug string
is nonempty; strbytes is what usbDebugFill returned. -/
def buildStatusBytes (strbytes : Nat) : Nat :=
  16 + (if strbytes ≠ 0 then 64 else 0)

/-- Drain step shared by the status-returning states of dfu_rd: clamp
the requested length to the staged packet, switch READTRIG to READREADY
on handing data to the host, and advance the packet index. -/
def dfuRdDrainStatus (s : Session) (length : Nat) : Session × Nat :=
  if s.currStatus = OPSTS.READTRIG then
    ({ s with currStatus := OPSTS.READREADY,
              inPktSize := s.inPktSize - min length s.inPktSize,
              inPktSizeIdx := s.inPktSizeIdx + min length s.inPktSize },
     min length s.inPktSize)
  else
    ({ s with inPktSize := s.inPktSize - min length s.inPktSize,
              inPktSizeIdx := s.inPktSizeIdx + min length s.inPktSize },
     min length s.inPktSize)

/-- Status-returning arm of dfu_rd: build a fresh status packet when
none is staged (its size is never 0, so the drain guard of the C code
always passes), then drain. -/
def dfuRdStatusGroup (strbytes : Nat) (s : Session) (length : Nat) : Session × Nat :=
  if s.inPktSize = 0 then
    dfuRdDrainStatus
      { s with inPktSize := buildStatusBytes strbytes, inPktSizeIdx := 0 } length
  else
    dfuRdDrainStatus s length

/-- Completion check at the end of the READREADY arm: once the staged
read chunk is fully drained the state advances to IDLE when nothing
remains, else back to READBUSY for the next chunk. -/
def readyFinish (s : Session) (sent : Nat) : Session × Nat :=
  if s.inPktSize = 0 then
    ({ s with currStatus :=
        (if s.currCmdSize = 0 then OPSTS.IDLE else OPSTS.READBUSY) }, sent)
  else
    (s, sent)

/-- Drain step of the READREADY arm. -/
def readyDrain (s : Session) (length : Nat) : Session × Nat :=
  if s.inPktSize ≠ 0 then
    readyFinish
      { s with inPktSize := s.inPktSize - min length s.inPktSize,
               inPktSizeIdx := s.inPktSizeIdx + min length s.inPktSize }
      (min length s.inPktSize)
  else
    readyFinish s length

/-- READREADY arm of dfu_rd: stage the next chunk of read data
(min of remaining size and buffer size, decrementing the remaining size
at staging time, exactly as the C code does), then drain and check for
completion. -/
def dfuRdReadReady (s : Session) (length : Nat) : Session × Nat :=
  if s.inPktSize = 0 then
    readyDrain
      { s with inPktSize := min s.currCmdSize s.buffer_size,
               currCmdSize := s.currCmdSize - min s.currCmdSize s.buffer_size,
               inPktSizeIdx := 0 }
      length
  else
    readyDrain s length

/-- Dispatch of dfu_rd on the current status after the zero-length
reset: the enum members without a case label (VERERR, PROG_RSVD) hit
the defensive default, which logs, forces the unknown-error state and
re-dispatches once (landing in the status group). -/
def dfuRdCore (strbytes : Nat) (s : Session) (length : Nat) : Session × Nat :=
  match s.currStatus with
  | OPSTS.READREADY => dfuRdReadReady s length
  | OPSTS.VERERR =>
      dfuRdStatusGroup strbytes { s with currStatus := OPSTS.ERRUN } length
  | OPSTS.PROG_RSVD =>
      dfuRdStatusGroup strbytes { s with currStatus := OPSTS.ERRUN } length
  | _ => dfuRdStatusGroup strbytes s length

/-- IN-endpoint handler dfu_rd: a zero requested length resets the
staged packet size, then the state dispatch runs.  strbytes is the
number of debug bytes usbDebugFill hands to the status builder. -/
def dfuRd (strbytes : Nat) (s : Session) (length : Nat) : Session × Nat :=
  if length = 0 then
    dfuRdCore strbytes { s with inPktSize := 0 } length
  else
    dfuRdCore strbytes s length

/-- One iteration of the background processing loop of
dfu_util_process, switching on the current status.  Idle, error, ready
and streaming states only wait; the terminal states close the active
region before the hardware reset, jump or dead loop (which are outside
the model, so the session is returned unchanged there); VERERR and
PROG_RSVD have no case in the C switch and do nothing.  The second
component is the trace of driver calls the iteration makes through the
root dispatcher. -/
def dfuUtilProcessStep (regs : List DFUPROG_REGION) (s : Session) :
    Session × List DriverCall :=
  match s.currStatus with
  | OPSTS.IDLE => (s, [])
  | OPSTS.ERRER => (s, [])
  | OPSTS.READER => (s, [])
  | OPSTS.PROGER => (s, [])
  | OPSTS.ERRUN => (s, [])
  | OPSTS.READREADY => (s, [])
  | OPSTS.READTRIG => (s, [])
  | OPSTS.VERERR => (s, [])
  | OPSTS.PROG_RSVD => (s, [])
  | OPSTS.READBUSY =>
      if (algo_root_read regs s.currCmdAddr (min s.currCmdSize s.buffer_size)).ret = 0 then
        ({ s with currStatus := OPSTS.READER },
         (algo_root_read regs s.currCmdAddr (min s.currCmdSize s.buffer_size)).calls)
      else
        ({ s with currStatus := OPSTS.READTRIG,
                  currCmdAddr := u32add s.currCmdAddr (min s.currCmdSize s.buffer_size) },
         (algo_root_read regs s.currCmdAddr (min s.currCmdSize s.buffer_size)).calls)
  | OPSTS.ERASE_ALL_ST =>
      if algo_root_isRegionValid regs s.currCmdAddr 0 < 0 then
        ({ s with currStatus := OPSTS.ERRER }, [])
      else if (algo_root_erase_all regs
          (regs.getD (algo_root_isRegionValid regs s.currCmdAddr 0).toNat
            default).region_addr).ret = 0 then
        ({ s with currStatus := OPSTS.ERRER },
         (algo_root_erase_all regs
           (regs.getD (algo_root_isRegionValid regs s.currCmdAddr 0).toNat
             default).region_addr).calls)
      else
        ({ s with currStatus := OPSTS.ERASE },
         (algo_root_erase_all regs
           (regs.getD (algo_root_isRegionValid regs s.currCmdAddr 0).toNat
             default).region_addr).calls)
  | OPSTS.ERASE_ST =>
      if algo_root_isRegionValid regs s.currCmdAddr s.currCmdSize < 0 then
        ({ s with currStatus := OPSTS.ERRER }, [])
      else if (algo_root_erase_region regs s.currCmdAddr s.currCmdSize).ret = 0 then
        ({ s with currStatus := OPSTS.ERRER },
         (algo_root_erase_region regs s.currCmdAddr s.currCmdSize).calls)
      else
        ({ s with currStatus := OPSTS.ERASE },
         (algo_root_erase_region regs s.currCmdAddr s.currCmdSize).calls)
  | OPSTS.ERASE => ({ s with currStatus := OPSTS.IDLE }, [])
  | OPSTS.PROG_STREAM => (s, [])
  | OPSTS.PROG =>
      if s.progSize = 0 then
        ({ s with currStatus := OPSTS.IDLE }, [])
      else if (algo_root_write regs s.currCmdAddr s.progSize).ret ≠ s.progSize then
        ({ s with currStatus := OPSTS.PROGER },
         (algo_root_write regs s.currCmdAddr s.progSize).calls)
      else if s.progSize < s.buffer_size ∨ s.currCmdSize = 0 then
        ({ s with currStatus := OPSTS.IDLE },
         (algo_root_write regs s.currCmdAddr s.progSize).calls)
      else
        ({ s with currStatus := OPSTS.PROG_STREAM,
                  currCmdAddr := u32add s.currCmdAddr s.progSize },
         (algo_root_write regs s.currCmdAddr s.progSize).calls)
  | OPSTS.RESET =>
      (s, (algo_root_close regs
        (regs.getD s.currentRegion default).region_addr).calls)
  | OPSTS.EXEC =>
      (s, (algo_root_close regs
        (regs.getD s.currentRegion default).region_addr).calls)
  | OPSTS.LOOP =>
      (s, (algo_root_close regs
        (regs.getD s.currentRegion default).region_addr).calls)

/-- Spec-side reading of the PROGRAMMING state, transcribed from the
words of the claim: if the staged chunk size is 0 the transfer is
complete and the state becomes IDLE; otherwise write is called with the
staged chunk and a differing bytes-written value gives PROGRAM_ERROR;
on a successful write the state becomes IDLE when the chunk is smaller
than the buffer granularity or the remaining size is now 0, else
PROGRAM_STREAMING with the target address advanced by the chunk size. -/
def spec_programming_step (regs : List DFUPROG_REGION) (s : Session) : Session :=
  if s.progSize = 0 then
    { s with currStatus := OPSTS.IDLE }
  else if (algo_root_write regs s.currCmdAddr s.progSize).ret ≠ s.progSize then
    { s with currStatus := OPSTS.PROGER }
  else if s.progSize < s.buffer_size ∨ s.currCmdSize = 0 then
    { s with currStatus := OPSTS.IDLE }
  else
    { s with currStatus := OPSTS.PROG_STREAM,
             currCmdAddr := u32add s.currCmdAddr s.progSize }

/-- Spec-side reading of the READ_BUSY state, transcribed from the
words of the claim: read min(remaining, buffer_size) bytes via the
registry, READ_ERROR on driver failure, else READ_TRIGGERED with the
address advanced by the bytes read. -/
def spec_read_busy_step (regs : List DFUPROG_REGION) (s : Session) : Session :=
  if (algo_root_read regs s.currCmdAddr (min s.currCmdSize s.buffer_size)).ret = 0 then
    { s with currStatus := OPSTS.READER }
  else
    { s with currStatus := OPSTS.READTRIG,
             currCmdAddr := u32add s.currCmdAddr (min s.currCmdSize s.buffer_size) }

/-- The two internal FLASH banks as declared in the pregions table of
the FLASH algorithm: (region_addr, region_size). -/
def pregionsIF : List (Nat × Nat) :=
  [(0x1A000000, 0x00080000), (0x1B000000, 0x00080000)]

/-- Sector table of the 18xx/43xx FLASH banks (sector_offset,
sector_size); the 0xFFFFFFFF sentinel of the C array is the end of the
list here. -/
def sectorinfo : List (Nat × Nat) :=
  [(0x00000000, 0x00002000), (0x00002000, 0x00002000), (0x00004000, 0x00002000),
   (0x00006000, 0x00002000), (0x00008000, 0x00002000), (0x0000A000, 0x00002000),
   (0x0000C000, 0x00002000), (0x0000E000, 0x00002000),
   (0x00010000, 0x00010000), (0x00020000, 0x00010000), (0x00030000, 0x00010000),
   (0x00040000, 0x00010000), (0x00050000, 0x00010000), (0x00060000, 0x00010000),
   (0x00070000, 0x00010000)]

/-- Loop of progalgo_iflash_findbank over the bank table.  The local
variable bank is initialised to -1 in the C source but the for
statement immediately overwrites it with 0, so the scan starts at 0 and
the value after a full scan is the table length (2), never -1. -/
def findbankScan (addr : Nat) : List (Nat × Nat) → Int → Int
  | [], bank => bank
  | (base, sz) :: rest, bank =>
    if base ≤ addr ∧ addr < base + sz then bank
    else findbankScan addr rest (bank + 1)

/-- progalgo_iflash_findbank, returning the C int. -/
def progalgo_iflash_findbank (addr : Nat) : Int :=
  findbankScan addr pregionsIF 0

/-- progalgo_iflash_progaddrvalid: bank rejection, 512-byte address
alignment (addr AND (PAGE_SIZE - 1) in C, which equals mod PAGE_SIZE)
and 512-byte size multiplicity, then the size is returned. -/
def progalgo_iflash_progaddrvalid (addr size : Nat) : Nat :=
  if progalgo_iflash_findbank addr < 0 then 0
  else if addr % PAGE_SIZE ≠ 0 then 0
  else if size ≠ PAGE_SIZE * (size / PAGE_SIZE) then 0
  else size

/-- progalgo_iflash_progaddrvalid with the bank-not-found rejection
branch removed; used to state that that branch never fires. -/
def progalgo_iflash_progaddrvalid_nobank (addr size : Nat) : Nat :=
  if addr % PAGE_SIZE ≠ 0 then 0
  else if size ≠ PAGE_SIZE * (size / PAGE_SIZE) then 0
  else size

/-- Sector scan of progalgo_iflash_find_sectorrange for the starting
address: the index of the sector whose range holds the target, paired
with whether the target sits exactly on the sector start; none when the
scan runs off the table. -/
def iflashFindStart (addrbase target : Nat) : List (Nat × Nat) → Nat → Option (Nat × Bool)
  | [], _ => none
  | (off, sz) :: rest, idx =>
    if addrbase + off ≤ target ∧ target ≤ addrbase + off + sz - 1 then
      some (idx, decide (target = addrbase + off))
    else
      iflashFindStart addrbase target rest (idx + 1)

/-- Sector scan for the ending address, pairing the index with whether
the target sits exactly on the sector end. -/
def iflashFindEnd (addrbase target : Nat) : List (Nat × Nat) → Nat → Option (Nat × Bool)
  | [], _ => none
  | (off, sz) :: rest, idx =>
    if addrbase + off ≤ target ∧ target ≤ addrbase + off + sz - 1 then
      some (idx, decide (target = addrbase + off + sz - 1))
    else
      iflashFindEnd addrbase target rest (idx + 1)

/-- progalgo_iflash_find_sectorrange: (bank, secstart, secend,
aligned).  The end scan continues from the starting sector, as the C
loop reuses its idx variable.  The aligned flag the C function reports
is whatever the LAST scan stored: the start scan writes it, and the end
scan overwrites it whenever it finds the ending sector, so the
returned flag only reflects the alignment of the ending address.  A
bank value of 2 would read past the pregions array in C (undefined
behaviour); the model then takes base 0, and no theorem relies on that
case. -/
def progalgo_iflash_find_sectorrange (addr size : Nat) :
    Option (Nat × Nat × Nat × Bool) :=
  match iflashFindStart
      ((pregionsIF.getD (progalgo_iflash_findbank addr).toNat (0, 0)).1)
      addr sectorinfo 0 with
  | none => none
  | some (secstart, _alignedStart) =>
    match iflashFindEnd
        ((pregionsIF.getD (progalgo_iflash_findbank addr).toNat (0, 0)).1)
        ((addr + size + U32 - 1) % U32)
        (sectorinfo.drop secstart) secstart with
    | none => none
    | some (secend, alignedEnd) =>
      some ((progalgo_iflash_findbank addr).toNat, secstart, secend, alignedEnd)

/-- IAP ROM calls the FLASH algorithm issues, recorded as a trace. -/
inductive IapCall where
  | prepSecs (bank secstart secend : Nat)
  | eraseSecs (bank secstart secend : Nat)
  | blankCheckSecs (bank secstart secend : Nat)
  | ramToFlash (dst : Nat) (data : List Nat) (bytes : Nat)
  | compareCmd (dst : Nat) (data : List Nat) (bytes : Nat)
deriving DecidableEq, Repr

/-- IAP environment in which every ROM call succeeds. -/
def iapAlwaysOk : IapCall → Nat := fun _ => IAP_CMD_SUCCESS

/-- IAP environment in which the verify (compare) call fails. -/
def iapCompareFails : IapCall → Nat
  | IapCall.compareCmd _ _ _ => 1
  | _ => IAP_CMD_SUCCESS

/-- progalgo_intflash_erase_region over an abstract IAP environment:
validate the parameters, find the sector range, demand the aligned
flag, then prepare, erase and blank-check through IAP.  Returns the C
return value together with the trace of IAP calls issued. -/
def progalgo_intflash_erase_region (iap : IapCall → Nat) (start size : Nat) :
    Nat × List IapCall :=
  if progalgo_iflash_progaddrvalid start size = 0 then (0, [])
  else
    match progalgo_iflash_find_sectorrange start size with
    | none => (0, [])
    | some (bank, secstart, secend, aligned) =>
      if aligned = false then (0, [])
      else if iap (IapCall.prepSecs bank secstart secend) ≠ IAP_CMD_SUCCESS then
        (0, [IapCall.prepSecs bank secstart secend])
      else if iap (IapCall.eraseSecs bank secstart secend) ≠ IAP_CMD_SUCCESS then
        (0, [IapCall.prepSecs bank secstart secend,
             IapCall.eraseSecs bank secstart secend])
      else if iap (IapCall.blankCheckSecs bank secstart secend) ≠ IAP_CMD_SUCCESS then
        (0, [IapCall.prepSecs bank secstart secend,
             IapCall.eraseSecs bank secstart secend,
             IapCall.blankCheckSecs bank secstart secend])
      else
        (size, [IapCall.prepSecs bank secstart secend,
                IapCall.eraseSecs bank secstart secend,
                IapCall.blankCheckSecs bank secstart secend])

/-- Padding step shared by the FLASH and EEPROM write paths: a buffer
of size bytes smaller than the program unit is filled up to the unit
with the byte 0xFF. -/
def padFF (buff : List Nat) (size unit : Nat) : List Nat :=
  if size < unit then buff.take size ++ List.replicate (unit - size) 0xFF
  else buff

/-- progalgo_intflash_write over an abstract IAP environment: reject
sizes over one page, pad a short final fragment with 0xFF to the page
size, validate, find the sector range, then prepare, program
(IAP_RAM_TO_FLASH of a full page) and verify (IAP_COMPARE) through
IAP; the originally requested size returns on success. -/
def progalgo_intflash_write (iap : IapCall → Nat) (buff : List Nat)
    (start size : Nat) : Nat × List IapCall :=
  if size > PAGE_SIZE then (0, [])
  else if progalgo_iflash_progaddrvalid start
      (if size < PAGE_SIZE then PAGE_SIZE else size) = 0 then (0, [])
  else
    match progalgo_iflash_find_sectorrange start
        (if size < PAGE_SIZE then PAGE_SIZE else size) with
    | none => (0, [])
    | some (bank, secstart, secend, _aligned) =>
      if iap (IapCall.prepSecs bank secstart secend) ≠ IAP_CMD_SUCCESS then
        (0, [IapCall.prepSecs bank secstart secend])
      else if iap (IapCall.ramToFlash start (padFF buff size PAGE_SIZE) PAGE_SIZE)
          ≠ IAP_CMD_SUCCESS then
        (0, [IapCall.prepSecs bank secstart secend,
             IapCall.ramToFlash start (padFF buff size PAGE_SIZE) PAGE_SIZE])
      else if iap (IapCall.compareCmd start (padFF buff size PAGE_SIZE) PAGE_SIZE)
          ≠ IAP_CMD_SUCCESS then
        (0, [IapCall.prepSecs bank secstart secend,
             IapCall.ramToFlash start (padFF buff size PAGE_SIZE) PAGE_SIZE,
             IapCall.compareCmd start (padFF buff size PAGE_SIZE) PAGE_SIZE])
      else
        (size, [IapCall.prepSecs bank secstart secend,
                IapCall.ramToFlash start (padFF buff size PAGE_SIZE) PAGE_SIZE,
                IapCall.compareCmd start (padFF buff size PAGE_SIZE) PAGE_SIZE])

/-- Modelled from the spec and the external chip support library, which
is not under src/: EEPROM_PAGE_SIZE is one EEPROM page, 128 bytes, and
EEPROM_ADDRESS maps a page to its memory-mapped location (the region
base), read back byte-wise little-endian. -/
def EEPROM_PAGE_SIZE : Nat := 128

/-- progalgo_inteeprom_write on one page: the buffer is padded with
0xFF up to the page size, then the loop stores fbuff[i] into the
uint32 word pEepromMem[i] for every word of the page.  fbuff is a byte
pointer, so each word receives one zero-extended byte; the resulting
memory-mapped page bytes are returned (little-endian word layout)
together with the C return value. -/
def progalgo_inteeprom_write (buff : List Nat) (size : Nat) : List Nat × Nat :=
  ((List.range (EEPROM_PAGE_SIZE / 4)).flatMap
    (fun i => [(padFF buff size EEPROM_PAGE_SIZE).getD i 0, 0, 0, 0]),
   size)

/-- progalgo_inteeprom_read: memmove of size bytes from the
memory-mapped page. -/
def progalgo_inteeprom_read (page : List Nat) (size : Nat) : List Nat :=
  page.take size

/-- State of the USB debug ring buffer: the write index usbStrIn, the
read index usbStrOut and the quiet-mode flag.  The stored bytes do not
affect the index discipline and are not tracked. -/
structure DebugBuf where
  usbStrIn : Nat
  usbStrOut : Nat
  verifyDebug : Bool
deriving DecidableEq, Repr

/-- usbDebugSetup: both indices start at 0. -/
def usbDebugSetup : DebugBuf :=
  { usbStrIn := 0, usbStrOut := 0, verifyDebug := true }

/-- One character step of usbDebug: increment the write index and wrap
it to 0 at the buffer size. -/
def usbDebugChar (q : DebugBuf) : DebugBuf :=
  { q with usbStrIn :=
      (if q.usbStrIn + 1 ≥ USBMSGBUFFSIZE then 0 else q.usbStrIn + 1) }

/-- usbDebug: append every character of the message, wrapping without
limits; a no-op in quiet mode. -/
def usbDebug (q : DebugBuf) (msg : List Char) : DebugBuf :=
  if q.verifyDebug then msg.foldl (fun st _ => usbDebugChar st) q else q

/-- Size usbDebugFill hands out: up to the end of the buffer when the
stored data wraps, else up to the write index, clamped to the caller
maximum. -/
def fillSize (q : DebugBuf) (max : Nat) : Nat :=
  min
    (if q.usbStrOut > q.usbStrIn then USBMSGBUFFSIZE - q.usbStrOut
     else q.usbStrIn - q.usbStrOut)
    max

/-- usbDebugFill: returns 0 with the state unchanged when the indices
are equal (queue considered empty); otherwise hands out fillSize bytes
and advances the read index, wrapping it to 0 at the buffer size. -/
def usbDebugFill (q : DebugBuf) (max : Nat) : Nat × DebugBuf :=
  if q.usbStrIn ≠ q.usbStrOut then
    (fillSize q max,
     { q with usbStrOut :=
        (if q.usbStrOut + fillSize q max ≥ USBMSGBUFFSIZE then 0
         else q.usbStrOut + fillSize q max) })
  else
    (0, q)

/-- An operation on the debug queue: enqueue a message or drain up to
max bytes into a status packet. -/
inductive DbgOp where
  | enqueue (msg : List Char)
  | drain (max : Nat)
deriving Repr

/-- Apply one debug queue operation. -/
def dbgStep (q : DebugBuf) : DbgOp → DebugBuf
  | DbgOp.enqueue msg => usbDebug q msg
  | DbgOp.drain max => (usbDebugFill q max).2

/-- Run a sequence of debug queue operations from the freshly set up
queue. -/
def dbgRun (ops : List DbgOp) : DebugBuf :=
  ops.foldl dbgStep usbDebugSetup

/-- Number of readable bytes the two indices encode. -/
def dbgLive (q : DebugBuf) : Nat :=
  (q.usbStrIn + USBMSGBUFFSIZE - q.usbStrOut) % USBMSGBUFFSIZE

/-- FLASH driver table wired to the modelled erase path in an
always-succeeding IAP environment.  Only erase_region is exercised by
the erase scenario; write and read echo the requested size like the
memory-mapped read path does, and erase_all reuses the region erase
exactly as the table in the C file binds functions. -/
def intflashAlgosOk : PROGALGOS :=
  { erase_region := fun a sz => (progalgo_intflash_erase_region iapAlwaysOk a sz).1,
    erase_all := fun a sz => (progalgo_intflash_erase_region iapAlwaysOk a sz).1,
    write := fun a sz => (progalgo_intflash_write iapAlwaysOk [] a sz).1,
    read := fun _ sz => sz }

/-- FLASH bank A exactly as the pregions table declares it. -/
def flashBankARegion : DFUPROG_REGION :=
  { region_addr := 0x1A000000, region_size := 0x00080000,
    regname := "FLASH bank A", pprogalgos := intflashAlgosOk, buffer_size := 512 }

/-- A registry holding FLASH bank A. -/
def flashRegs : List DFUPROG_REGION := [flashBankARegion]

/-- SRAM-like driver table: every operation succeeds and echoes the
requested size, as the IRAM algorithm does on a valid range. -/
def sramAlgos : PROGALGOS :=
  { erase_region := fun _ sz => sz, erase_all := fun _ sz => sz,
    write := fun _ sz => sz, read := fun _ sz => sz }

/-- Local SRAM 1 as the IRAM pregions table declares it. -/
def sram1Region : DFUPROG_REGION :=
  { region_addr := 0x10000000, region_size := 0x00020000,
    regname := "Local SRAM 1", pprogalgos := sramAlgos, buffer_size := 2048 }

/-- A registry holding Local SRAM 1, used by concrete witnesses. -/
def demoRegs : List DFUPROG_REGION := [sram1Region]

/-- A session parked in IDLE over demoRegs. -/
def idleSession : Session :=
  { currStatus := OPSTS.IDLE, hostCmd := 0, currentRegion := 0,
    buffer_size := 2048, currCmdAddr := 0, currCmdSize := 0,
    outPktSizeIdx := 0, progSize := 0, inPktSize := 0, inPktSizeIdx := 0,
    verifyDebug := true, progBuffActive := false }

/-- A streaming session with 512 bytes already staged out of a 4096
byte transfer into a 1024 byte buffer. -/
def c2StreamSession : Session :=
  { idleSession with currStatus := OPSTS.PROG_STREAM,
                     hostCmd := DFU_HOSTCMD_PROGRAM,
                     buffer_size := 1024, currCmdAddr := 0x10000000,
                     currCmdSize := 4096, outPktSizeIdx := 512,
                     progBuffActive := true }

/-- An ERASE_REGION session targeting 0x1A000200 (inside FLASH bank A,
512-byte aligned, but in the middle of sector 0) with size 0x1E00, so
the range ends exactly at the sector 0 end 0x1A001FFF. -/
def c5EraseSession : Session :=
  { idleSession with currStatus := OPSTS.ERASE_ST,
                     hostCmd := DFU_HOSTCMD_ERASE_REGION,
                     buffer_size := 512, currCmdAddr := 0x1A000200,
                     currCmdSize := 0x1E00 }

/-- A PROGRAMMING session with a full 2048-byte chunk staged and 2048
bytes still remaining after it. -/
def progDemoSession : Session :=
  { idleSession with currStatus := OPSTS.PROG,
                     hostCmd := DFU_HOSTCMD_PROGRAM,
                     currCmdAddr := 0x10000000, currCmdSize := 2048,
                     progSize := 2048 }

/-- A READ_BUSY session over demoRegs with 4096 bytes left to read. -/
def readBusyDemoSession : Session :=
  { idleSession with currStatus := OPSTS.READBUSY,
                     hostCmd := DFU_HOSTCMD_READBACK,
                     currCmdAddr := 0x10000000, currCmdSize := 4096 }

/-- A READ_TRIGGERED session whose staged status packet is drained. -/
def readTrigDemoSession : Session :=
  { idleSession with currStatus := OPSTS.READTRIG,
                     hostCmd := DFU_HOSTCMD_READBACK,
                     currCmdAddr := 0x10000800, currCmdSize := 4096 }

/-- A READ_READY session with 1024 bytes remaining and a 512 byte
buffer, about to stage and fully drain one 512 byte chunk. -/
def readReadyDemoSession : Session :=
  { idleSession with currStatus := OPSTS.READREADY,
                     hostCmd := DFU_HOSTCMD_READBACK,
                     buffer_size := 512,
                     currCmdAddr := 0x10000800, currCmdSize := 1024 }

/-- An ERASE_REGION command header with a mismatched magic word. -/
def badMagicHdr : DFU_FROMHOST_PACKETHDR :=
  { hostCmd := DFU_HOSTCMD_ERASE_REGION, addr := 0x10000000,
    size := 0x2000, magic := 0x18430100 }

/-- A header whose fields are irrelevant (zero-length packets are not
parsed). -/
def nullHdr : DFU_FROMHOST_PACKETHDR :=
  { hostCmd := DFU_HOSTCMD_PROGRAM, addr := 0, size := 0,
    magic := DFUPROG_VALIDVAL }

theorem usbDebugChar_in_lt (q : DebugBuf) :
    (usbDebugChar q).usbStrIn < USBMSGBUFFSIZE := by
  simp only [usbDebugChar, USBMSGBUFFSIZE]
  split_ifs <;> omega

theorem usbDebugChars_inv (msg : List Char) (q : DebugBuf)
    (h : q.usbStrIn < USBMSGBUFFSIZE) :
    (msg.foldl (fun st _ => usbDebugChar st) q).usbStrIn < USBMSGBUFFSIZE ∧
    (msg.foldl (fun st _ => usbDebugChar st) q).usbStrOut = q.usbStrOut := by
  induction msg generalizing q with
  | nil => exact ⟨h, rfl⟩
  | cons c cs ih =>
    simpa only [List.foldl_cons] using ih (usbDebugChar q) (usbDebugChar_in_lt q)

theorem dbgStep_inv (q : DebugBuf) (op : DbgOp)
    (h : q.usbStrIn < USBMSGBUFFSIZE ∧ q.usbStrOut < USBMSGBUFFSIZE) :
    (dbgStep q op).usbStrIn < USBMSGBUFFSIZE ∧
    (dbgStep q op).usbStrOut < USBMSGBUFFSIZE := by
  cases op with
  | enqueue msg =>
    simp only [dbgStep, usbDebug]
    split_ifs
    · obtain ⟨h1, h2⟩ := usbDebugChars_inv msg q h.1
      exact ⟨h1, h2 ▸ h.2⟩
    · exact h
  | drain max =>
    simp only [dbgStep, usbDebugFill, USBMSGBUFFSIZE] at h ⊢
    split_ifs <;> simp <;> omega

theorem dbgRun_inv_aux (ops : List DbgOp) (q : DebugBuf)
    (h : q.usbStrIn < USBMSGBUFFSIZE ∧ q.usbStrOut < USBMSGBUFFSIZE) :
    (ops.foldl dbgStep q).usbStrIn < USBMSGBUFFSIZE ∧
    (ops.foldl dbgStep q).usbStrOut < USBMSGBUFFSIZE := by
  induction ops generalizing q with
  | nil => exact h
  | cons op rest ih => exact ih (dbgStep q op) (dbgStep_inv q op h)

/-- C9: for every sequence of enqueue and drain operations from the
empty queue, both indices of the debug ring stay within the capacity
2048, the indices are equal exactly when the queue holds nothing (a
drain hands out 0 bytes), and the number of bytes the indices encode
never exceeds capacity minus 1. -/
theorem c9_debug_queue_index_invariant (ops : List DbgOp) :
    (dbgRun ops).usbStrIn < USBMSGBUFFSIZE ∧
    (dbgRun ops).usbStrOut < USBMSGBUFFSIZE ∧
    ((dbgRun ops).usbStrIn = (dbgRun ops).usbStrOut ↔ dbgLive (dbgRun ops) = 0) ∧
    dbgLive (dbgRun ops) ≤ USBMSGBUFFSIZE - 1 ∧
    ((usbDebugFill (dbgRun ops) USBMSGBUFFSIZE).1 = 0 ↔
      (dbgRun ops).usbStrIn = (dbgRun ops).usbStrOut) := by
  obtain ⟨h1, h2⟩ := dbgRun_inv_aux ops usbDebugSetup ⟨by norm_num [usbDebugSetup, USBMSGBUFFSIZE], by norm_num [usbDebugSetup, USBMSGBUFFSIZE]⟩
  refine ⟨h1, h2, ?_, ?_, ?_⟩
  · simp only [dbgLive, dbgRun, USBMSGBUFFSIZE] at *
    omega
  · simp only [dbgLive, dbgRun, USBMSGBUFFSIZE] at *
    omega
  · simp only [usbDebugFill, fillSize, dbgRun, USBMSGBUFFSIZE] at *
    split_ifs <;> simp <;> omega

/-- C10: progalgo_iflash_findbank only takes the values 0, 1 and 2, so
it is never negative and the bank-not-found rejection branch of
progalgo_iflash_progaddrvalid never fires: the validator equals its
bank-check-free counterpart on every input. -/
theorem c10_findbank_never_negative (addr : Nat) :
    (progalgo_iflash_findbank addr = 0 ∨ progalgo_iflash_findbank addr = 1 ∨
      progalgo_iflash_findbank addr = 2) ∧
    0 ≤ progalgo_iflash_findbank addr ∧
    (∀ size : Nat, progalgo_iflash_progaddrvalid addr size =
      progalgo_iflash_progaddrvalid_nobank addr size) := by
  have hb : progalgo_iflash_findbank addr = 0 ∨ progalgo_iflash_findbank addr = 1 ∨
      progalgo_iflash_findbank addr = 2 := by
    simp only [progalgo_iflash_findbank, pregionsIF, findbankScan]
    split_ifs <;> norm_num
  have hge : 0 ≤ progalgo_iflash_findbank addr := by
    rcases hb with h | h | h <;> rw [h] <;> norm_num
  refine ⟨hb, hge, fun size => ?_⟩
  rw [progalgo_iflash_progaddrvalid, progalgo_iflash_progaddrvalid_nobank,
    if_neg (Int.not_lt.mpr hge)]

/-- C1: the registry lookup computed at the top of the address space.
With FLASH bank A registered, the uint32 sum addr + size of
lookup(0xFFFFFFFF, 1) wraps to 0, the containment test passes, and the
lookup returns index 0 instead of the documented -1, although
mathematically the range end 0x100000000 lies past the region end
0x1A080000 (third conjunct), so no region contains the range. -/
theorem c1_lookup_wraps_at_address_top :
    algo_root_isRegionValid flashRegs 0xFFFFFFFF 1 = 0 ∧
    ¬ algo_root_isRegionValid flashRegs 0xFFFFFFFF 1 = -1 ∧
    flashBankARegion.region_addr ≤ 0xFFFFFFFF ∧
    flashBankARegion.region_addr + flashBankARegion.region_size < 0xFFFFFFFF + 1 := by
  refine ⟨by decide, by decide, by decide, by decide⟩

/-- C2 counterexample: a zero-length OUT packet received in
PROGRAM_STREAMING with 512 bytes staged leaves the state in
PROGRAM_STREAMING with nothing handed to the executor (progSize stays
0) and only resets the staging index; it does not enter PROGRAMMING. -/
theorem c2_zlp_does_not_trigger_program :
    (dfuWr [] c2StreamSession 0 nullHdr).1.currStatus = OPSTS.PROG_STREAM ∧
    (dfuWr [] c2StreamSession 0 nullHdr).1.progSize = 0 ∧
    (dfuWr [] c2StreamSession 0 nullHdr).1.outPktSizeIdx = 0 ∧
    ¬ (dfuWr [] c2StreamSession 0 nullHdr).1.currStatus = OPSTS.PROG := by
  refine ⟨by decide, by decide, by decide, by decide⟩

/-- C2 as amended: in PROGRAM_STREAMING a zero-length OUT packet only
resets the staging index and re-arms the program buffer, leaving the
state unchanged; the transition to PROGRAMMING that hands the staged
byte count to the executor fires exactly when the accumulated count
reaches the buffer size or the remaining transfer size. -/
theorem c2_stream_boundary_triggers_program (regs : List DFUPROG_REGION)
    (s : Session) (hdr : DFU_FROMHOST_PACKETHDR)
    (h : s.currStatus = OPSTS.PROG_STREAM) :
    (dfuWr regs s 0 hdr).1 =
      { s with outPktSizeIdx := 0, progBuffActive := true } ∧
    (∀ length : Nat, length ≠ 0 →
      (u32add s.outPktSizeIdx length = s.buffer_size ∨
        u32add s.outPktSizeIdx length = s.currCmdSize) →
      (dfuWr regs s length hdr).1 =
        { s with currStatus := OPSTS.PROG,
                 progSize := u32add s.outPktSizeIdx length,
                 currCmdSize := u32sub s.currCmdSize (u32add s.outPktSizeIdx length),
                 outPktSizeIdx := 0,
                 progBuffActive := false }) := by
  constructor
  · simp [dfuWr, dfuWrStream, h]
  · intro length hl hb
    simp only [dfuWr, if_pos h, dfuWrStream, if_neg hl, if_pos hb]

theorem c2_stream_boundary_triggers_program_witness :
    (dfuWr [] c2StreamSession 0 nullHdr).1 =
      { c2StreamSession with outPktSizeIdx := 0, progBuffActive := true } ∧
    (dfuWr [] c2StreamSession 512 nullHdr).1 =
      { c2StreamSession with currStatus := OPSTS.PROG, progSize := 1024,
                             currCmdSize := 3072, outPktSizeIdx := 0,
                             progBuffActive := false } := by
  obtain ⟨a, b⟩ := c2_stream_boundary_triggers_program [] c2StreamSession nullHdr rfl
  exact ⟨a, (b 512 (by decide) (by decide)).trans (by decide)⟩

/-- C3: in state PROGRAMMING one background-loop iteration behaves
exactly as the spec sentence reads: chunk 0 completes to IDLE, a
bytes-written mismatch gives PROGRAM_ERROR, and a successful write goes
to IDLE on the last chunk (short chunk or nothing remaining) and
otherwise back to PROGRAM_STREAMING with the address advanced. -/
theorem c3_programming_state_follows_spec (regs : List DFUPROG_REGION)
    (s : Session) (h : s.currStatus = OPSTS.PROG) :
    (dfuUtilProcessStep regs s).1 = spec_programming_step regs s := by
  rcases s with ⟨st, hc, cr, bs, ca, cs, oi, ps, ip, ix, vd, pb⟩
  obtain rfl : st = OPSTS.PROG := h
  simp only [dfuUtilProcessStep, spec_programming_step]
  split_ifs <;> rfl

theorem c3_programming_state_follows_spec_witness :
    (dfuUtilProcessStep demoRegs progDemoSession).1 =
      spec_programming_step demoRegs progDemoSession :=
  c3_programming_state_follows_spec demoRegs progDemoSession rfl

/-- C4: the three legs of the readback pipeline.  READ_BUSY performs
the chunked registry read exactly as the spec sentence reads; any host
IN request in READ_TRIGGERED moves the state to READ_READY; and in
READ_READY, once the staged chunk min(remaining, buffer_size) is fully
drained in one request, the remaining size has dropped by the chunk and
the state is IDLE when nothing remains, else READ_BUSY. -/
theorem c4_readback_pipeline (regs : List DFUPROG_REGION) (strbytes : Nat)
    (s : Session) (length : Nat) :
    (s.currStatus = OPSTS.READBUSY →
      (dfuUtilProcessStep regs s).1 = spec_read_busy_step regs s) ∧
    (s.currStatus = OPSTS.READTRIG →
      (dfuRd strbytes s length).1.currStatus = OPSTS.READREADY) ∧
    (s.currStatus = OPSTS.READREADY → s.inPktSize = 0 →
      min s.currCmdSize s.buffer_size ≤ length →
      (dfuRd strbytes s length).1.currCmdSize =
        s.currCmdSize - min s.currCmdSize s.buffer_size ∧
      (dfuRd strbytes s length).1.currStatus =
        (if s.currCmdSize - min s.currCmdSize s.buffer_size = 0 then OPSTS.IDLE
         else OPSTS.READBUSY)) := by
  rcases s with ⟨st, hc, cr, bs, ca, cs, oi, ps, ip, ix, vd, pb⟩
  refine ⟨?_, ?_, ?_⟩
  · intro h
    obtain rfl : st = OPSTS.READBUSY := h
    simp only [dfuUtilProcessStep, spec_read_busy_step]
    split_ifs <;> rfl
  · intro h
    obtain rfl : st = OPSTS.READTRIG := h
    by_cases hl : length = 0 <;> by_cases hip : ip = 0 <;>
      simp [dfuRd, dfuRdCore, dfuRdStatusGroup, dfuRdDrainStatus,
        buildStatusBytes, hl, hip]
  · intro h hip hlen
    obtain rfl : st = OPSTS.READREADY := h
    obtain rfl : ip = 0 := hip
    simp only at hlen
    by_cases hchunk : min cs bs = 0
    · by_cases hl : length = 0 <;>
        simp [dfuRd, dfuRdCore, dfuRdReadReady, readyDrain, readyFinish,
          hl, hchunk]
    · have hl : length ≠ 0 := by
        intro h0
        rw [h0] at hlen
        omega
      have hmin : min length (min cs bs) = min cs bs := min_eq_right hlen
      simp [dfuRd, dfuRdCore, dfuRdReadReady, readyDrain, readyFinish,
        hl, hchunk, hmin]

theorem c4_readback_pipeline_witness :
    (dfuUtilProcessStep demoRegs readBusyDemoSession).1 =
      spec_read_busy_step demoRegs readBusyDemoSession ∧
    (dfuRd 0 readTrigDemoSession 16).1.currStatus = OPSTS.READREADY ∧
    (dfuRd 0 readReadyDemoSession 2048).1.currCmdSize = 512 ∧
    (dfuRd 0 readReadyDemoSession 2048).1.currStatus = OPSTS.READBUSY := by
  refine ⟨(c4_readback_pipeline demoRegs 0 readBusyDemoSession 16).1 rfl,
          (c4_readback_pipeline demoRegs 0 readTrigDemoSession 16).2.1 rfl,
          ?_, ?_⟩
  · exact ((c4_readback_pipeline demoRegs 0 readReadyDemoSession 2048).2.2
      rfl rfl (by decide)).1.trans (by decide)
  · exact ((c4_readback_pipeline demoRegs 0 readReadyDemoSession 2048).2.2
      rfl rfl (by decide)).2.trans (by decide)

/-- C5: an ERASE_REGION of [0x1A000200, 0x1A002000), which starts in
the middle of FLASH bank A sector 0 but ends on the sector end.  The
start-sector scan records the start as unaligned (first conjunct), yet
the erase path reports success (0x1E00, not 0), issues the IAP
prepare, erase and blank-check calls, and the background loop advances
the session to ERASING rather than ERASE_ERROR: the aligned flag of
the start scan is overwritten by the end scan. -/
theorem c5_unaligned_erase_invokes_iap_erase :
    iflashFindStart 0x1A000000 0x1A000200 sectorinfo 0 = some (0, false) ∧
    (progalgo_intflash_erase_region iapAlwaysOk 0x1A000200 0x1E00).1 = 0x1E00 ∧
    ¬ (progalgo_intflash_erase_region iapAlwaysOk 0x1A000200 0x1E00).1 = 0 ∧
    (progalgo_intflash_erase_region iapAlwaysOk 0x1A000200 0x1E00).2 =
      [IapCall.prepSecs 0 0 0, IapCall.eraseSecs 0 0 0,
       IapCall.blankCheckSecs 0 0 0] ∧
    (dfuUtilProcessStep flashRegs c5EraseSession).1.currStatus = OPSTS.ERASE ∧
    ¬ (dfuUtilProcessStep flashRegs c5EraseSession).1.currStatus = OPSTS.ERRER := by
  refine ⟨by decide, by decide, by decide, by decide, by decide, by decide⟩

/-- C6: every root dispatcher operation is gated by the registry
lookup: on a failed lookup it returns 0 (false for close) with
diagnostics queued and an empty driver-call trace, and on a successful
lookup it issues exactly the delegated driver call and passes the
driver return value through unchanged. -/
theorem c6_root_dispatch_lookup_gates_drivers (regs : List DFUPROG_REGION)
    (addr size : Nat) :
    (algo_root_isRegionValid regs addr size < 0 →
      algo_root_erase_region regs addr size = { ret := 0, calls := [], diags := 2 } ∧
      algo_root_write regs addr size = { ret := 0, calls := [], diags := 2 } ∧
      algo_root_read regs addr size = { ret := 0, calls := [], diags := 2 }) ∧
    (0 ≤ algo_root_isRegionValid regs addr size →
      algo_root_erase_region regs addr size =
        { ret := (regs.getD (algo_root_isRegionValid regs addr size).toNat
            default).pprogalgos.erase_region addr size,
          calls := [DriverCall.erase_region addr size], diags := 0 } ∧
      algo_root_write regs addr size =
        { ret := (regs.getD (algo_root_isRegionValid regs addr size).toNat
            default).pprogalgos.write addr size,
          calls := [DriverCall.write addr size], diags := 0 } ∧
      algo_root_read regs addr size =
        { ret := (regs.getD (algo_root_isRegionValid regs addr size).toNat
            default).pprogalgos.read addr size,
          calls := [DriverCall.read addr size], diags := 0 }) ∧
    (algo_root_isRegionValid regs addr 0 < 0 →
      algo_root_erase_all regs addr = { ret := 0, calls := [], diags := 2 } ∧
      algo_root_close regs addr = { ok := false, calls := [], diags := 2 }) ∧
    (0 ≤ algo_root_isRegionValid regs addr 0 →
      algo_root_erase_all regs addr =
        { ret := (regs.getD (algo_root_isRegionValid regs addr 0).toNat
            default).pprogalgos.erase_all
              (regs.getD (algo_root_isRegionValid regs addr 0).toNat
                default).region_addr
              (regs.getD (algo_root_isRegionValid regs addr 0).toNat
                default).region_size,
          calls := [DriverCall.erase_all
              (regs.getD (algo_root_isRegionValid regs addr 0).toNat
                default).region_addr
              (regs.getD (algo_root_isRegionValid regs addr 0).toNat
                default).region_size], diags := 0 } ∧
      algo_root_close regs addr =
        { ok := true, calls := [DriverCall.close addr], diags := 0 }) := by
  refine ⟨?_, ?_, ?_, ?_⟩
  · intro h
    rw [algo_root_erase_region, algo_root_write, algo_root_read]
    rw [if_pos h, if_pos h, if_pos h]
    exact ⟨rfl, rfl, rfl⟩
  · intro h
    rw [algo_root_erase_region, algo_root_write, algo_root_read]
    rw [if_neg (Int.not_lt.mpr h), if_neg (Int.not_lt.mpr h),
      if_neg (Int.not_lt.mpr h)]
    exact ⟨rfl, rfl, rfl⟩
  · intro h
    rw [algo_root_erase_all, algo_root_close]
    rw [if_pos h, if_pos h]
    exact ⟨rfl, rfl⟩
  · intro h
    rw [algo_root_erase_all, algo_root_close]
    rw [if_neg (Int.not_lt.mpr h), if_neg (Int.not_lt.mpr h)]
    exact ⟨rfl, rfl⟩

theorem c6_root_dispatch_lookup_gates_drivers_witness :
    (algo_root_erase_region demoRegs 0 4 = { ret := 0, calls := [], diags := 2 } ∧
      algo_root_close demoRegs 0 = { ok := false, calls := [], diags := 2 }) ∧
    (algo_root_write demoRegs 0x10000000 16 =
        { ret := 16, calls := [DriverCall.write 0x10000000 16], diags := 0 } ∧
      algo_root_close demoRegs 0x10000000 =
        { ok := true, calls := [DriverCall.close 0x10000000], diags := 0 }) := by
  refine ⟨⟨?_, ?_⟩, ?_, ?_⟩
  · exact ((c6_root_dispatch_lookup_gates_drivers demoRegs 0 4).1 (by decide)).1
  · exact ((c6_root_dispatch_lookup_gates_drivers demoRegs 0 4).2.2.1 (by decide)).2
  · exact (((c6_root_dispatch_lookup_gates_drivers demoRegs 0x10000000 16).2.1
      (by decide)).2.1).trans (by decide)
  · exact (((c6_root_dispatch_lookup_gates_drivers demoRegs 0x10000000 16).2.2.2
      (by decide)).2).trans (by decide)

/-- C7: a command packet whose magic word mismatches DFUPROG_VALIDVAL
is dispatched exactly as the same packet with the valid magic (the
resulting session states are equal), the version warning diagnostic is
queued exactly on mismatch, and checkMagicHeader always returns true,
so the mismatch is never fatal. -/
theorem c7_magic_mismatch_soft_fail (regs : List DFUPROG_REGION) (s : Session)
    (length : Nat) (hdr : DFU_FROMHOST_PACKETHDR)
    (hs : s.currStatus ≠ OPSTS.PROG_STREAM) (hl : length ≠ 0) :
    (dfuWr regs s length hdr).1 =
      (dfuWr regs s length { hdr with magic := DFUPROG_VALIDVAL }).1 ∧
    ((dfuWr regs s length hdr).2 = true ↔ hdr.magic ≠ DFUPROG_VALIDVAL) ∧
    (checkMagicHeader hdr.magic).1 = true := by
  refine ⟨?_, ?_, rfl⟩
  · simp only [dfuWr, if_neg hs, if_pos hl]
    rfl
  · simp only [dfuWr, if_neg hs, if_pos hl, dfuWrCommand, checkMagicHeader]
    simp [decide_eq_true_iff]

theorem c7_magic_mismatch_soft_fail_witness :
    (dfuWr demoRegs idleSession 16 badMagicHdr).1 =
      (dfuWr demoRegs idleSession 16
        { badMagicHdr with magic := DFUPROG_VALIDVAL }).1 ∧
    ((dfuWr demoRegs idleSession 16 badMagicHdr).2 = true ↔
      badMagicHdr.magic ≠ DFUPROG_VALIDVAL) ∧
    (checkMagicHeader badMagicHdr.magic).1 = true :=
  c7_magic_mismatch_soft_fail demoRegs idleSession 16 badMagicHdr
    (by decide) (by decide)

set_option maxRecDepth 4000 in
/-- C8: the FLASH write pads a 2-byte final fragment with 0xFF to the
512-byte page, returns the requested 2 on a verified program and 0
when the IAP verify fails; but the EEPROM write stores each source
byte as a zero-extended 32-bit word (byte pointer read, word pointer
store), so reading back the 2 written bytes yields 0xAB, 0x00 instead
of 0xAB, 0xCD, and the padded remainder reads back 0, not 0xFF. -/
theorem c8_eeprom_write_drops_bytes :
    (progalgo_intflash_write iapAlwaysOk [0xAB, 0xCD] 0x1A000000 2).1 = 2 ∧
    (progalgo_intflash_write iapCompareFails [0xAB, 0xCD] 0x1A000000 2).1 = 0 ∧
    ((padFF [0xAB, 0xCD] 2 PAGE_SIZE).drop 2).all (fun b => b == 0xFF) = true ∧
    (progalgo_inteeprom_write [0xAB, 0xCD] 2).2 = 2 ∧
    progalgo_inteeprom_read (progalgo_inteeprom_write [0xAB, 0xCD] 2).1 2 =
      [0xAB, 0x00] ∧
    ¬ progalgo_inteeprom_read (progalgo_inteeprom_write [0xAB, 0xCD] 2).1 2 =
      [0xAB, 0xCD] ∧
    (progalgo_inteeprom_write [0xAB, 0xCD] 2).1.getD 2 0 = 0 ∧
    ¬ (progalgo_inteeprom_write [0xAB, 0xCD] 2).1.getD 2 0 = 0xFF := by
  refine ⟨by decide, by decide, by decide, by decide, by decide, by decide,
    by decide, by decide⟩

end DfuUtil
